import Mathlib

/-!
Verification of the network update cycle in `src/net/stack_manager.rs`
(`NetworkProcessor`): the stack-poll status mapping, the PHY link
debounce state machine, and the reset policy.

The collaborators (`NetworkReference`, `EthernetPhy`, `CycleCounter`,
logging) are external to the core; each tick's interactions with them are
modelled as explicit per-tick inputs (the stack-poll outcome, the PHY
link observation, the clock reading) and an explicit event trace of the
side effects the tick performs, in order.
-/

namespace Stabilizer

/-- Modelled from the spec: the `UpdateState` enum lives in the `net`
module (outside `src/`); the spec describes it as the two-valued status
\x7bUpdated, NoChange\x7d returned to the caller. -/
inductive UpdateState : Type
  | Updated : UpdateState
  | NoChange : UpdateState
deriving DecidableEq, Repr

/-- One observable interaction of a tick with its collaborators, in the
order performed: the stack poll (with the timestamp passed and the
outcome received), an informational log emission, the PHY link query
(with the observation received), and the stack link-reset call.
`E` is the opaque diagnostic type of stack-poll failures. -/
inductive Event (E : Type) : Type
  | stackPoll : Nat → Except E Bool → Event E
  | logInfo : E → Event E
  | phyPoll : Bool → Event E
  | linkReset : Event E
deriving Repr

/-- The external data one call of `update` consumes: the clock reading
`time` (what `self.clock.current_ms()` returns), the stack-poll outcome
`pollResult` (what `self.stack.poll(time)` returns: `Ok(progress)` or
`Err(diagnostic)`), and the PHY observation `link` (what
`self.phy.poll_link()` returns). -/
structure TickInput (E : Type) : Type where
  time : Nat
  pollResult : Except E Bool
  link : Bool
deriving Repr

/-- The `NetworkProcessor` struct: three owned collaborator handles
(opaque here) and the debounce flag `network_was_reset`. -/
structure NetworkProcessor (S P C : Type) : Type where
  stack : S
  phy : P
  clock : C
  network_was_reset : Bool

/-- `NetworkProcessor::new`: stores the three collaborators unchanged and
initializes `network_was_reset` to `false`. -/
def NetworkProcessor.new {S P C : Type} (stack : S) (phy : P) (clock : C) :
    NetworkProcessor S P C :=
  { stack := stack, phy := phy, clock := clock, network_was_reset := false }

/-- `NetworkProcessor::update`: polls the stack with the current time and
classifies the outcome (`Ok(true)` ↦ `Updated`, `Ok(false)` ↦ `NoChange`,
`Err(e)` ↦ log `e` and `Updated`), then polls the PHY link and applies the
debounce policy (present ↦ clear the flag; absent with the flag clear ↦
set the flag and call `handle_link_reset`; absent with the flag set ↦
nothing), and returns the status computed from the poll.  The returned
triple is (returned status, updated processor, event trace in execution
order). -/
def NetworkProcessor.update {S P C E : Type} (self : NetworkProcessor S P C)
    (inp : TickInput E) :
    UpdateState × NetworkProcessor S P C × List (Event E) :=
  let pollStep : UpdateState × List (Event E) :=
    match inp.pollResult with
    | Except.ok true => (UpdateState.Updated, [])
    | Except.ok false => (UpdateState.NoChange, [])
    | Except.error err => (UpdateState.Updated, [Event.logInfo err])
  let result := pollStep.1
  let pollEvents := Event.stackPoll inp.time inp.pollResult :: pollStep.2
  match inp.link with
  | true =>
      (result, { self with network_was_reset := false },
        pollEvents ++ [Event.phyPoll true])
  | false =>
      if self.network_was_reset then
        (result, self, pollEvents ++ [Event.phyPoll false])
      else
        (result, { self with network_was_reset := true },
          pollEvents ++ [Event.phyPoll false, Event.linkReset])

/-- Recognizer for the link-reset event. -/
def Event.isReset {E : Type} : Event E → Bool
  | Event.linkReset => true
  | _ => false

/-- Recognizer for log-emission events. -/
def Event.isLog {E : Type} : Event E → Bool
  | Event.logInfo _ => true
  | _ => false

/-- The diagnostics logged in a trace, in order. -/
def logsOf {E : Type} : List (Event E) → List E
  | [] => []
  | Event.logInfo e :: rest => e :: logsOf rest
  | _ :: rest => logsOf rest

/-- Number of link-reset calls in a trace. -/
def resetCount {E : Type} (evs : List (Event E)) : Nat :=
  (evs.filter Event.isReset).length

/-- What one tick looked like from the outside: the debounce flag just
before the tick, the status it returned, its event trace, and the flag
just after. -/
structure TickTrace (E : Type) : Type where
  flagBefore : Bool
  status : UpdateState
  events : List (Event E)
  flagAfter : Bool
deriving Repr

/-- Run the processor over a list of tick inputs, recording each tick. -/
def traceFrom {S P C E : Type} (np : NetworkProcessor S P C) :
    List (TickInput E) → List (TickTrace E)
  | [] => []
  | inp :: rest =>
      let r := np.update inp
      { flagBefore := np.network_was_reset, status := r.1, events := r.2.2,
        flagAfter := r.2.1.network_was_reset } :: traceFrom r.2.1 rest

/-- Run a freshly constructed processor (debounce flag `false`) over a
list of tick inputs. -/
def runTrace {E : Type} (inps : List (TickInput E)) : List (TickTrace E) :=
  traceFrom (NetworkProcessor.new () () ()) inps

/-- Default tick input used by positional lookups (link present, no
progress). -/
def defaultInput {E : Type} : TickInput E :=
  { time := 0, pollResult := Except.ok false, link := true }

/-- Default tick trace used by positional lookups. -/
def defaultTrace {E : Type} : TickTrace E :=
  { flagBefore := false, status := UpdateState.NoChange, events := [],
    flagAfter := false }

/-- The link observation of tick `i` (0-based) of an input sequence. -/
def linkAt {E : Type} (inps : List (TickInput E)) (i : Nat) : Bool :=
  (inps.getD i defaultInput).link

/-- The trace of tick `i` (0-based) of the run of a fresh processor. -/
def traceAt {E : Type} (inps : List (TickInput E)) (i : Nat) : TickTrace E :=
  (runTrace inps).getD i defaultTrace

/-- Whether tick `i` of the run of a fresh processor issued a reset. -/
def resetAt {E : Type} (inps : List (TickInput E)) (i : Nat) : Bool :=
  (traceAt inps i).events.any Event.isReset

/-- The 0-based indices of the ticks that issued a reset. -/
def resetTicks {E : Type} (inps : List (TickInput E)) : List Nat :=
  (List.range inps.length).filter fun i => resetAt inps i

/-! ### Closed forms of one `update` call -/

/-- Closed form of the status `update` computes from the poll outcome. -/
def statusOf {E : Type} : Except E Bool → UpdateState
  | Except.error _ => UpdateState.Updated
  | Except.ok true => UpdateState.Updated
  | Except.ok false => UpdateState.NoChange

/-- Closed form of the log events the poll step emits. -/
def logEvents {E : Type} : Except E Bool → List (Event E)
  | Except.error e => [Event.logInfo e]
  | Except.ok _ => []

/-- Closed form of the diagnostics the poll step logs. -/
def diagOf {E : Type} : Except E Bool → List E
  | Except.error e => [e]
  | Except.ok _ => []

/-- Closed form of the events of the PHY step, as a function of the
debounce flag before the tick and the link observation. -/
def phyEvents {E : Type} (flag : Bool) (link : Bool) : List (Event E) :=
  match link, flag with
  | true, _ => [Event.phyPoll true]
  | false, true => [Event.phyPoll false]
  | false, false => [Event.phyPoll false, Event.linkReset]

/-- The debounce flag just before tick `i` of a run started with flag
`init`: `init` for the first tick, and the negation of the previous
tick's link observation afterwards (meaningful for `i ≤ inps.length`). -/
def flagB {E : Type} (init : Bool) (inps : List (TickInput E)) : Nat → Bool
  | 0 => init
  | i + 1 => !(inps.getD i defaultInput).link

/-- The trace of a single tick as a function of the flag before it and
the tick's input, obtained by running `update` on a processor holding
that flag. -/
def tickOf {E : Type} (flag : Bool) (inp : TickInput E) : TickTrace E :=
  let r := (NetworkProcessor.mk () () () flag).update inp
  { flagBefore := flag, status := r.1, events := r.2.2,
    flagAfter := r.2.1.network_was_reset }

/-- The link-observation sequence
[present, absent, absent, absent, present, absent] of the spec's
debounce-idempotence example, with varied poll outcomes and times. -/
def c1Run : List (TickInput Nat) :=
  [{ time := 0, pollResult := Except.ok false, link := true },
   { time := 1, pollResult := Except.ok false, link := false },
   { time := 2, pollResult := Except.error 9, link := false },
   { time := 3, pollResult := Except.ok true, link := false },
   { time := 4, pollResult := Except.ok false, link := true },
   { time := 5, pollResult := Except.ok true, link := false }]

/-- A one-tick run observing an absent link. -/
def c3Run : List (TickInput Nat) :=
  [{ time := 0, pollResult := Except.ok false, link := false }]

/-- The spec's five-tick scenario: (progress, link) =
(true, present), (false, absent), (false, absent), (true, present),
(false, absent). -/
def c8Run : List (TickInput Nat) :=
  [{ time := 0, pollResult := Except.ok true, link := true },
   { time := 1, pollResult := Except.ok false, link := false },
   { time := 2, pollResult := Except.ok false, link := false },
   { time := 3, pollResult := Except.ok true, link := true },
   { time := 4, pollResult := Except.ok false, link := false }]

/-- A tick input observing the link present. -/
def presentTick : TickInput Nat :=
  { time := 0, pollResult := Except.ok true, link := true }

/-- A tick input observing the link absent. -/
def absentTick : TickInput Nat :=
  { time := 1, pollResult := Except.ok false, link := false }

/-- A tick input whose stack poll fails with diagnostic `42`. -/
def errorTick : TickInput Nat :=
  { time := 2, pollResult := Except.error 42, link := true }

/-! ### Lemmas about one `update` call -/

lemma update_flag {S P C E : Type} (np : NetworkProcessor S P C)
    (inp : TickInput E) :
    (np.update inp).2.1.network_was_reset = !inp.link := by
  obtain ⟨s, p, c, f⟩ := np
  obtain ⟨t, pr, l⟩ := inp
  rcases pr with e | b
  · cases l <;> cases f <;> rfl
  · cases b <;> cases l <;> cases f <;> rfl

lemma update_collab {S P C E : Type} (np : NetworkProcessor S P C)
    (inp : TickInput E) :
    (np.update inp).2.1.stack = np.stack ∧ (np.update inp).2.1.phy = np.phy ∧
      (np.update inp).2.1.clock = np.clock := by
  obtain ⟨s, p, c, f⟩ := np
  obtain ⟨t, pr, l⟩ := inp
  rcases pr with e | b
  · cases l <;> cases f <;> exact ⟨rfl, rfl, rfl⟩
  · cases b <;> cases l <;> cases f <;> exact ⟨rfl, rfl, rfl⟩

lemma update_status {S P C E : Type} (np : NetworkProcessor S P C)
    (inp : TickInput E) :
    (np.update inp).1 = statusOf inp.pollResult := by
  obtain ⟨s, p, c, f⟩ := np
  obtain ⟨t, pr, l⟩ := inp
  rcases pr with e | b
  · cases l <;> cases f <;> rfl
  · cases b <;> cases l <;> cases f <;> rfl

lemma update_events {S P C E : Type} (np : NetworkProcessor S P C)
    (inp : TickInput E) :
    (np.update inp).2.2 =
      Event.stackPoll inp.time inp.pollResult ::
        (logEvents inp.pollResult ++ phyEvents np.network_was_reset inp.link) := by
  obtain ⟨s, p, c, f⟩ := np
  obtain ⟨t, pr, l⟩ := inp
  rcases pr with e | b
  · cases l <;> cases f <;> rfl
  · cases b <;> cases l <;> cases f <;> rfl

lemma update_reset_any {S P C E : Type} (np : NetworkProcessor S P C)
    (inp : TickInput E) :
    (np.update inp).2.2.any Event.isReset =
      (!inp.link && !np.network_was_reset) := by
  obtain ⟨s, p, c, f⟩ := np
  obtain ⟨t, pr, l⟩ := inp
  rcases pr with e | b
  · cases l <;> cases f <;> rfl
  · cases b <;> cases l <;> cases f <;> rfl

lemma update_resetCount {S P C E : Type} (np : NetworkProcessor S P C)
    (inp : TickInput E) :
    resetCount (np.update inp).2.2 =
      cond (!inp.link && !np.network_was_reset) 1 0 := by
  obtain ⟨s, p, c, f⟩ := np
  obtain ⟨t, pr, l⟩ := inp
  rcases pr with e | b
  · cases l <;> cases f <;> rfl
  · cases b <;> cases l <;> cases f <;> rfl

lemma update_logs {S P C E : Type} (np : NetworkProcessor S P C)
    (inp : TickInput E) :
    logsOf (np.update inp).2.2 = diagOf inp.pollResult := by
  obtain ⟨s, p, c, f⟩ := np
  obtain ⟨t, pr, l⟩ := inp
  rcases pr with e | b
  · cases l <;> cases f <;> rfl
  · cases b <;> cases l <;> cases f <;> rfl

/-! ### Indexing a run -/

lemma tickOf_eq {E : Type} (flag : Bool) (inp : TickInput E) :
    tickOf flag inp =
      { flagBefore := flag, status := statusOf inp.pollResult,
        events := Event.stackPoll inp.time inp.pollResult ::
          (logEvents inp.pollResult ++ phyEvents flag inp.link),
        flagAfter := !inp.link } := by
  obtain ⟨t, pr, l⟩ := inp
  rcases pr with e | b
  · cases l <;> cases flag <;> rfl
  · cases b <;> cases l <;> cases flag <;> rfl

lemma traceFrom_cons {S P C E : Type} (np : NetworkProcessor S P C)
    (inp : TickInput E) (rest : List (TickInput E)) :
    traceFrom np (inp :: rest) =
      tickOf np.network_was_reset inp :: traceFrom (np.update inp).2.1 rest := by
  have hst := update_status np inp
  have hev := update_events np inp
  have hfl := update_flag np inp
  show TickTrace.mk np.network_was_reset (np.update inp).1 (np.update inp).2.2
      (np.update inp).2.1.network_was_reset :: traceFrom (np.update inp).2.1 rest
    = _
  rw [hst, hev, hfl, tickOf_eq]

lemma traceFrom_length {S P C E : Type} (np : NetworkProcessor S P C)
    (inps : List (TickInput E)) :
    (traceFrom np inps).length = inps.length := by
  induction inps generalizing np with
  | nil => rfl
  | cons inp rest ih =>
      show (_ :: traceFrom ((np.update inp).2.1) rest).length = _
      simp [ih]

lemma traceFrom_getD {S P C E : Type} (np : NetworkProcessor S P C)
    (inps : List (TickInput E)) (i : Nat) (h : i < inps.length) :
    (traceFrom np inps).getD i defaultTrace =
      tickOf (flagB np.network_was_reset inps i) (inps.getD i defaultInput) := by
  induction inps generalizing np i with
  | nil => exact absurd h (Nat.not_lt_zero i)
  | cons inp rest ih =>
      rw [traceFrom_cons]
      cases i with
      | zero => rfl
      | succ i =>
          have hi : i < rest.length := Nat.lt_of_succ_lt_succ h
          show (traceFrom (np.update inp).2.1 rest).getD i defaultTrace = _
          rw [ih (np.update inp).2.1 i hi]
          have hfb :
              flagB (np.update inp).2.1.network_was_reset rest i =
                flagB np.network_was_reset (inp :: rest) (i + 1) := by
            cases i with
            | zero =>
                show (np.update inp).2.1.network_was_reset = _
                rw [update_flag]
                rfl
            | succ j => rfl
          rw [hfb]
          rfl

lemma traceAt_eq {E : Type} (inps : List (TickInput E)) (i : Nat)
    (h : i < inps.length) :
    traceAt inps i = tickOf (flagB false inps i) (inps.getD i defaultInput) :=
  traceFrom_getD (NetworkProcessor.new () () ()) inps i h

lemma tickOf_flagAfter {E : Type} (flag : Bool) (inp : TickInput E) :
    (tickOf flag inp).flagAfter = !inp.link :=
  update_flag (NetworkProcessor.mk () () () flag) inp

lemma tickOf_reset_any {E : Type} (flag : Bool) (inp : TickInput E) :
    (tickOf flag inp).events.any Event.isReset = (!inp.link && !flag) :=
  update_reset_any (NetworkProcessor.mk () () () flag) inp

lemma traceAt_flagAfter {E : Type} (inps : List (TickInput E)) (i : Nat)
    (h : i < inps.length) :
    (traceAt inps i).flagAfter = !(linkAt inps i) := by
  rw [traceAt_eq inps i h, tickOf_flagAfter]; rfl

lemma resetAt_eq {E : Type} (inps : List (TickInput E)) (i : Nat)
    (h : i < inps.length) :
    resetAt inps i = (!(linkAt inps i) && !(flagB false inps i)) := by
  show (traceAt inps i).events.any Event.isReset = _
  rw [traceAt_eq inps i h, tickOf_reset_any]; rfl

/-- In a run of a fresh processor, every tick observing an absent link
lies in an absent streak whose first tick issued a reset. -/
lemma streak_reset {E : Type} (inps : List (TickInput E)) :
    ∀ i, i < inps.length → linkAt inps i = false →
      ∃ k, k ≤ i ∧ resetAt inps k = true ∧
        ∀ j, k ≤ j → j ≤ i → linkAt inps j = false := by
  intro i
  induction i with
  | zero =>
      intro h hl
      refine ⟨0, Nat.le_refl 0, ?_, ?_⟩
      · rw [resetAt_eq inps 0 h, hl]; rfl
      · intro j hj0 hj1
        have : j = 0 := Nat.le_antisymm hj1 hj0
        rw [this]; exact hl
  | succ i ih =>
      intro h hl
      cases hprev : linkAt inps i with
      | true =>
          refine ⟨i + 1, Nat.le_refl _, ?_, ?_⟩
          · have hfb : flagB false inps (i + 1) = false := by
              show (!(linkAt inps i)) = false
              rw [hprev]
              rfl
            rw [resetAt_eq inps (i + 1) h, hl, hfb]
            rfl
          · intro j hj0 hj1
            have : j = i + 1 := Nat.le_antisymm hj1 hj0
            rw [this]; exact hl
      | false =>
          obtain ⟨k, hk, hkr, hks⟩ :=
            ih (Nat.lt_of_succ_lt h) hprev
          refine ⟨k, Nat.le_succ_of_le hk, hkr, ?_⟩
          intro j hj0 hj1
          cases Nat.lt_or_ge j (i + 1) with
          | inl hlt => exact hks j hj0 (Nat.lt_succ_iff.mp hlt)
          | inr hge =>
              have : j = i + 1 := Nat.le_antisymm hj1 hge
              rw [this]; exact hl

lemma phyEvents_eq {E : Type} (flag link : Bool) :
    phyEvents (E := E) flag link =
      Event.phyPoll link :: cond (!link && !flag) [Event.linkReset] [] := by
  cases flag <;> cases link <;> rfl

/-! ### The claims -/

/-- C1: a tick's reset is invoked if and only if that tick observes the
link absent and the debounce flag was false (Armed) immediately before
the tick's PHY query; at most one reset is issued per contiguous streak
of absent observations; and the observation sequence
[present, absent, absent, absent, present, absent] yields exactly 2
reset calls, at the second and sixth ticks (indices 1 and 5). -/
theorem C1_reset_iff_absent_and_armed :
    (∀ (S P C E : Type) (np : NetworkProcessor S P C) (inp : TickInput E),
        ((np.update inp).2.2.any Event.isReset = true ↔
          inp.link = false ∧ np.network_was_reset = false)) ∧
      (∀ (E : Type) (inps : List (TickInput E)) (i j : Nat),
          i < j → j < inps.length →
          (∀ m, i ≤ m → m ≤ j → linkAt inps m = false) →
          resetAt inps i = true → resetAt inps j = false) ∧
      resetTicks c1Run = [1, 5] := by
  refine ⟨?_, ?_, by decide⟩
  · intro S P C E np inp
    rw [update_reset_any np inp]
    cases hl : inp.link <;> cases hf : np.network_was_reset <;> simp
  · intro E inps i j hij hj hstreak _hri
    cases j with
    | zero => exact absurd hij (Nat.not_lt_zero i)
    | succ m =>
        have hm : linkAt inps m = false :=
          hstreak m (Nat.lt_succ_iff.mp hij) (Nat.le_succ m)
        have hfb : flagB false inps (m + 1) = true := by
          show (!(linkAt inps m)) = true
          rw [hm]
          rfl
        rw [resetAt_eq inps (m + 1) hj, hfb]
        simp

/-- Witness for C1: ticks 1 and 2 of the example run form an absent
streak whose first tick reset, so tick 2 does not reset. -/
theorem C1_reset_iff_absent_and_armed_witness :
    resetAt c1Run 2 = false := by
  have h := C1_reset_iff_absent_and_armed
  refine h.2.1 Nat c1Run 1 2 (by decide) (by decide) ?_ (by decide)
  intro m h1 h2
  interval_cases m <;> decide

/-- C2: the returned status is determined by the stack-poll outcome
alone: progress ↦ Updated with no log, no progress ↦ NoChange with no
log, failure ↦ Updated with exactly the failing diagnostic logged; and
whether a reset is issued does not depend on the poll outcome (the
failure path triggers no reset). -/
theorem C2_status_mapping :
    ∀ (S P C E : Type) (np : NetworkProcessor S P C) (inp : TickInput E),
      (inp.pollResult = Except.ok true →
        (np.update inp).1 = UpdateState.Updated ∧
          logsOf (np.update inp).2.2 = []) ∧
      (inp.pollResult = Except.ok false →
        (np.update inp).1 = UpdateState.NoChange ∧
          logsOf (np.update inp).2.2 = []) ∧
      (∀ e : E, inp.pollResult = Except.error e →
        (np.update inp).1 = UpdateState.Updated ∧
          logsOf (np.update inp).2.2 = [e]) ∧
      (∀ inp' : TickInput E, inp'.link = inp.link →
        (np.update inp').2.2.any Event.isReset =
          (np.update inp).2.2.any Event.isReset) := by
  intro S P C E np inp
  refine ⟨?_, ?_, ?_, ?_⟩
  · intro hpr
    rw [update_status, update_logs, hpr]
    exact ⟨rfl, rfl⟩
  · intro hpr
    rw [update_status, update_logs, hpr]
    exact ⟨rfl, rfl⟩
  · intro e hpr
    rw [update_status, update_logs, hpr]
    exact ⟨rfl, rfl⟩
  · intro inp' hl
    rw [update_reset_any, update_reset_any, hl]

/-- Witness for C2: a failing poll with diagnostic 42 returns Updated
and logs exactly that diagnostic. -/
theorem C2_status_mapping_witness :
    ((NetworkProcessor.new () () ()).update errorTick).1 =
        UpdateState.Updated ∧
      logsOf ((NetworkProcessor.new () () ()).update errorTick).2.2 = [42] :=
  (C2_status_mapping Unit Unit Unit Nat (NetworkProcessor.new () () ())
      errorTick).2.2.1 42 rfl

/-- C3: in every state reachable from the initial state, the debounce
flag after a tick is true iff that tick observed the link absent and a
reset has been issued at some tick of the current contiguous absent
streak; in particular the flag is false after every tick observing the
link present. -/
theorem C3_flag_invariant :
    ∀ (E : Type) (inps : List (TickInput E)) (i : Nat), i < inps.length →
      (((traceAt inps i).flagAfter = true ↔
          linkAt inps i = false ∧
            ∃ k, k ≤ i ∧ resetAt inps k = true ∧
              ∀ j, k ≤ j → j ≤ i → linkAt inps j = false) ∧
        (linkAt inps i = true → (traceAt inps i).flagAfter = false)) := by
  intro E inps i h
  have hfa := traceAt_flagAfter inps i h
  constructor
  · constructor
    · intro hflag
      rw [hfa] at hflag
      have hl : linkAt inps i = false := by
        cases hcase : linkAt inps i
        · rfl
        · rw [hcase] at hflag
          simp at hflag
      exact ⟨hl, streak_reset inps i h hl⟩
    · rintro ⟨hl, -⟩
      rw [hfa, hl]
      rfl
  · intro hl
    rw [hfa, hl]
    rfl

/-- Witness for C3: after the single absent tick of `c3Run`, the flag is
set, and that tick itself is the streak's resetting tick. -/
theorem C3_flag_invariant_witness :
    (traceAt c3Run 0).flagAfter = true := by
  have h := C3_flag_invariant Nat c3Run 0 (by decide)
  refine h.1.mpr ⟨by decide, 0, Nat.le_refl 0, by decide, ?_⟩
  intro j _ h2
  have hj := Nat.le_zero.mp h2
  rw [hj]
  decide

/-- C4: the tick never raises an error: for every poll outcome,
including every diagnostic error value, the returned status is one of
Updated and NoChange, and poll errors are logged locally (status
Updated) rather than propagated. -/
theorem C4_tick_never_fails :
    ∀ (S P C E : Type) (np : NetworkProcessor S P C) (inp : TickInput E),
      ((np.update inp).1 = UpdateState.Updated ∨
        (np.update inp).1 = UpdateState.NoChange) ∧
      (∀ e : E, inp.pollResult = Except.error e →
        (np.update inp).1 = UpdateState.Updated ∧
          logsOf (np.update inp).2.2 = [e]) := by
  intro S P C E np inp
  constructor
  · rcases hpr : inp.pollResult with e | b
    · rw [update_status, hpr]
      exact Or.inl rfl
    · cases b
      · rw [update_status, hpr]
        exact Or.inr rfl
      · rw [update_status, hpr]
        exact Or.inl rfl
  · intro e hpr
    rw [update_status, update_logs, hpr]
    exact ⟨rfl, rfl⟩

/-- Witness for C4: the failing poll of `errorTick` yields status
Updated. -/
theorem C4_tick_never_fails_witness :
    ((NetworkProcessor.mk () () () true).update errorTick).1 =
      UpdateState.Updated := by
  have h := C4_tick_never_fails Unit Unit Unit Nat
    (NetworkProcessor.mk () () () true) errorTick
  exact (h.2 42 rfl).1

/-- C5: within one tick the stack-poll event precedes the PHY-query
event (with only log emissions between them); and a tick with
progress=false, link absent and flag Armed returns NoChange while also
issuing a reset, so the reset does not influence the returned status. -/
theorem C5_poll_before_phy :
    ∀ (S P C E : Type) (np : NetworkProcessor S P C) (inp : TickInput E),
      (∃ (mid post : List (Event E)), (np.update inp).2.2 =
          Event.stackPoll inp.time inp.pollResult ::
            (mid ++ Event.phyPoll inp.link :: post) ∧
          ∀ ev ∈ mid, Event.isLog ev = true) ∧
      (inp.pollResult = Except.ok false → inp.link = false →
        np.network_was_reset = false →
        (np.update inp).1 = UpdateState.NoChange ∧
          (np.update inp).2.2.any Event.isReset = true) := by
  intro S P C E np inp
  constructor
  · refine ⟨logEvents inp.pollResult,
      cond (!inp.link && !np.network_was_reset) [Event.linkReset] [], ?_, ?_⟩
    · rw [update_events, phyEvents_eq]
    · intro ev hev
      rcases hpr : inp.pollResult with e | b
      · rw [hpr] at hev
        simp only [logEvents, List.mem_singleton] at hev
        rw [hev]
        rfl
      · rw [hpr] at hev
        simp only [logEvents] at hev
        exact absurd hev (List.not_mem_nil ev)
  · intro h1 h2 h3
    constructor
    · rw [update_status, h1]
      rfl
    · rw [update_reset_any, h2, h3]
      rfl

/-- Witness for C5: from a fresh processor, a no-progress poll with the
link absent returns NoChange and issues a reset. -/
theorem C5_poll_before_phy_witness :
    ((NetworkProcessor.new () () ()).update absentTick).1 =
        UpdateState.NoChange ∧
      ((NetworkProcessor.new () () ()).update absentTick).2.2.any
          Event.isReset = true := by
  have h := C5_poll_before_phy Unit Unit Unit Nat
    (NetworkProcessor.new () () ()) absentTick
  exact h.2 rfl rfl rfl

/-- C6: a tick observing the link present leaves the debounce flag
false (Armed) whatever its prior value, so an absent observation on the
immediately following tick issues exactly one reset call. -/
theorem C6_rearm_unconditional :
    ∀ (S P C E : Type) (np : NetworkProcessor S P C) (inp : TickInput E),
      inp.link = true →
        (np.update inp).2.1.network_was_reset = false ∧
        ∀ inp' : TickInput E, inp'.link = false →
          resetCount (((np.update inp).2.1).update inp').2.2 = 1 := by
  intro S P C E np inp h
  constructor
  · rw [update_flag, h]
    rfl
  · intro inp' h'
    rw [update_resetCount, h', update_flag, h]
    rfl

/-- Witness for C6: after a present tick on a processor whose flag is
set, the next absent tick issues exactly one reset. -/
theorem C6_rearm_unconditional_witness :
    resetCount ((((NetworkProcessor.mk () () () true).update
        presentTick).2.1).update absentTick).2.2 = 1 := by
  have h := C6_rearm_unconditional Unit Unit Unit Nat
    (NetworkProcessor.mk () () () true) presentTick rfl
  exact h.2 absentTick rfl

/-- C7: the constructor stores its three collaborator arguments
unvalidated and unchanged and initializes the debounce flag to false,
so a first tick observing the link absent issues exactly one reset
call. -/
theorem C7_new_initializes_armed :
    ∀ (S P C : Type) (s : S) (p : P) (c : C),
      (NetworkProcessor.new s p c).network_was_reset = false ∧
      NetworkProcessor.new s p c =
        { stack := s, phy := p, clock := c, network_was_reset := false } ∧
      ∀ (E : Type) (inp : TickInput E), inp.link = false →
        resetCount ((NetworkProcessor.new s p c).update inp).2.2 = 1 := by
  intro S P C s p c
  refine ⟨rfl, rfl, ?_⟩
  intro E inp h
  rw [update_resetCount, h]
  rfl

/-- Witness for C7: a fresh processor's first absent tick issues
exactly one reset. -/
theorem C7_new_initializes_armed_witness :
    resetCount ((NetworkProcessor.new () () ()).update absentTick).2.2 = 1 := by
  have h := C7_new_initializes_armed Unit Unit Unit () () ()
  exact h.2.2 Nat absentTick rfl

/-- C8: from a fresh processor, the five-tick scenario with
(progress, link) = (true, present), (false, absent), (false, absent),
(true, present), (false, absent) returns the statuses
[Updated, NoChange, NoChange, Updated, NoChange] and issues resets on
the second and fifth ticks only (indices 1 and 4). -/
theorem C8_five_tick_scenario :
    (runTrace c8Run).map TickTrace.status =
        [UpdateState.Updated, UpdateState.NoChange, UpdateState.NoChange,
          UpdateState.Updated, UpdateState.NoChange] ∧
      resetTicks c8Run = [1, 4] :=
  ⟨by decide, by decide⟩

/-- C9: the returned status depends only on the stack-poll outcome:
two ticks with equal poll outcomes return equal statuses, whatever
their link observations, prior flag values and clock readings. -/
theorem C9_status_depends_only_on_poll :
    ∀ (S P C E : Type) (np np' : NetworkProcessor S P C)
      (inp inp' : TickInput E),
      inp.pollResult = inp'.pollResult →
      (np.update inp).1 = (np'.update inp').1 := by
  intro S P C E np np' inp inp' h
  rw [update_status, update_status, h]

/-- Witness for C9: same poll outcome, different time, link and flag
give the same status. -/
theorem C9_status_depends_only_on_poll_witness :
    ((NetworkProcessor.new () () ()).update presentTick).1 =
      ((NetworkProcessor.mk () () () true).update
        ({ time := 77, pollResult := Except.ok true, link := false } :
          TickInput Nat)).1 :=
  C9_status_depends_only_on_poll Unit Unit Unit Nat
    (NetworkProcessor.new () () ()) (NetworkProcessor.mk () () () true)
    presentTick
    ({ time := 77, pollResult := Except.ok true, link := false } :
      TickInput Nat) rfl

/-- C10: after any single tick the debounce flag equals the negation of
that tick's link observation, independently of the flag's prior value
and of the poll outcome. -/
theorem C10_flag_tracks_last_link :
    ∀ (S P C E : Type) (np : NetworkProcessor S P C) (inp : TickInput E),
      (np.update inp).2.1.network_was_reset = !inp.link := by
  intro S P C E np inp
  exact update_flag np inp

end Stabilizer
